import Mathlib

/-!
Verification development for the axion-health tool-calling core.

Shallow embedding of the orchestration loop and the five analytical tools
(`api/agents/gemini_orchestrator.py`, `api/tools/*.py`, and the
user-scoped vector search of `api/services/pinecone_client.py`).

Conventions used throughout:
* Python floats are modelled as exact rationals (`ℚ`).  The only places
  where the source takes a square root (sample standard deviations) are
  modelled by passing the (real-valued) root in as an explicit argument,
  together with its defining property where a theorem needs it.
* External libraries (the Gemini SDK, statsmodels' ARIMA fit,
  scikit-learn's IsolationForest, the Pinecone index, the Supabase
  table) are modelled as explicit parameters; their documented contracts
  appear as hypotheses of the theorems that need them.
* Fallible code is modelled with `Except`/`Option`; a Python `try/except`
  block becomes a `match` on the `Except` value.
-/

namespace AxionHealth

/-! ## List helpers

The embedding uses its own structural insertion sort (`sort_by`) in place
of library sorts: Python's `list.sort` is stable, and so is `sort_by` (a
new element is inserted in front of the first element it is `le`-related
to, so earlier elements precede later ones with equal keys). -/

/-- Insert `a` in front of the first element `b` with `le a b`. -/
def insert_by {α : Type} (le : α → α → Bool) (a : α) : List α → List α
  | [] => [a]
  | b :: bs => if le a b then a :: b :: bs else b :: insert_by le a bs

/-- Structural stable insertion sort by the boolean relation `le`. -/
def sort_by {α : Type} (le : α → α → Bool) : List α → List α
  | [] => []
  | a :: as => insert_by le a (sort_by le as)

/-- First-occurrence deduplication with an accumulator of seen keys
(`pandas` group keys; order is irrelevant here because the caller sorts). -/
def dedup_seen {α : Type} [BEq α] : List α → List α → List α
  | _, [] => []
  | seen, d :: ds =>
    if seen.contains d then dedup_seen seen ds
    else d :: dedup_seen (seen ++ [d]) ds

/-! ## Metric name normalizer (`api/tools/forecasting.py`, `normalize_metric_name`) -/

/-- Python `str.strip()` on a character sequence. -/
def strip_chars (cs : List Char) : List Char :=
  ((cs.dropWhile Char.isWhitespace).reverse.dropWhile Char.isWhitespace).reverse

/-- Python `metric_name.lower().strip()`. -/
def py_lower_strip (s : String) : String :=
  ⟨strip_chars (s.data.map Char.toLower)⟩

/-- The alias table `metric_mapping` of `normalize_metric_name`, in source order. -/
def metric_mapping : List (String × String) := [
  ("heart rate", "heart_rate_resting"),
  ("heartrate", "heart_rate_resting"),
  ("heart_rate", "heart_rate_resting"),
  ("resting heart rate", "heart_rate_resting"),
  ("resting heartrate", "heart_rate_resting"),
  ("hr", "heart_rate_resting"),
  ("heart rate sleep", "heart_rate_sleep"),
  ("sleep heart rate", "heart_rate_sleep"),
  ("hrv", "heart_rate_variability_sdnn"),
  ("heart rate variability", "heart_rate_variability_sdnn"),
  ("hrv sdnn", "heart_rate_variability_sdnn"),
  ("hrv rmssd", "heart_rate_variability_rmssd"),
  ("sleep", "sleep_duration"),
  ("sleep time", "sleep_duration"),
  ("hours of sleep", "sleep_duration"),
  ("deep sleep", "sleep_deep_duration"),
  ("rem sleep", "sleep_rem_duration"),
  ("light sleep", "sleep_light_duration"),
  ("step count", "steps"),
  ("daily steps", "steps"),
  ("walking", "steps"),
  ("active time", "active_duration"),
  ("activity", "active_duration"),
  ("exercise", "active_duration"),
  ("weight", "weight"),
  ("body weight", "weight"),
  ("bmi", "body_mass_index"),
  ("body mass index", "body_mass_index"),
  ("body fat", "body_fat"),
  ("fat percentage", "body_fat"),
  ("oxygen", "oxygen_saturation"),
  ("o2", "oxygen_saturation"),
  ("spo2", "oxygen_saturation"),
  ("blood pressure", "blood_pressure_systolic"),
  ("systolic", "blood_pressure_systolic"),
  ("diastolic", "blood_pressure_diastolic"),
  ("respiratory rate", "respiratory_rate"),
  ("breathing rate", "respiratory_rate"),
  ("glucose", "blood_glucose"),
  ("blood sugar", "blood_glucose")]

/-- Embeds `normalize_metric_name`: lower-case and strip the input, look it up in the
alias table, and return the mapped canonical name on a hit, the original
input unchanged on a miss. -/
def normalize_metric_name (metric_name : String) : String :=
  let normalized := py_lower_strip metric_name
  match metric_mapping.find? (fun p => p.1 == normalized) with
  | some p => p.2
  | none => metric_name

/-! ## Correlation tool (`api/tools/correlation_analysis.py`) -/

/-- One element of the `correlations` list built by `find_correlations`. -/
structure CorrelationEntry where
  metric1 : String
  metric2 : String
  correlation : ℚ
  strength : String
  direction : String
deriving DecidableEq

/-- Embeds `_interpret_correlation`: classify a correlation coefficient by the
magnitude thresholds 0.7 and 0.4. -/
def interpret_correlation (corr_value : ℚ) : String :=
  let abs_corr := |corr_value|
  if abs_corr ≥ 7/10 then "strong"
  else if abs_corr ≥ 2/5 then "moderate"
  else "weak"

/-- The double loop of `find_correlations` (lines 89–106): for every index
pair `i < j` over the metric columns, skip `NaN` correlations (modelled as
`none`), keep pairs whose absolute correlation meets `min_correlation`,
and build the result record.  The correlation matrix computed by pandas is
passed in as `corr`. -/
def extract_correlations (metrics : List String) (corr : Nat → Nat → Option ℚ)
    (min_correlation : ℚ) : List CorrelationEntry :=
  (List.range metrics.length).flatMap (fun i =>
    (List.range metrics.length).filterMap (fun j =>
      if i < j then
        (corr i j).bind (fun corr_value =>
          if |corr_value| ≥ min_correlation then
            some { metric1 := metrics.getD i ""
                   metric2 := metrics.getD j ""
                   correlation := corr_value
                   strength := interpret_correlation corr_value
                   direction := if corr_value > 0 then "positive" else "negative" }
          else none)
      else none))

/-- The `correlations` list as returned: extracted entries sorted descending
by absolute correlation (`correlations.sort(key=abs, reverse=True)`; Python's
sort is stable, as is `sort_by`). -/
def find_correlations_list (metrics : List String) (corr : Nat → Nat → Option ℚ)
    (min_correlation : ℚ) : List CorrelationEntry :=
  sort_by (fun a b => decide (|b.correlation| ≤ |a.correlation|))
    (extract_correlations metrics corr min_correlation)

/-! ## Forecasting tool (`api/tools/forecasting.py`) -/

/-- Embeds `pd.to_numeric(..., errors="coerce")` followed by `dropna`: keep only the
rows whose textual value coerced to a number.  A raw row is `(day, value?)`
where `none` models a failed numeric coercion (`NaN`). -/
def numeric_rows (raw : List (ℤ × Option ℚ)) : List (ℤ × ℚ) :=
  raw.filterMap (fun r => r.2.map (fun v => (r.1, v)))

/-- Arithmetic mean of a list of values (`Series.mean`). -/
def mean_of (vs : List ℚ) : ℚ := vs.sum / (vs.length : ℚ)

/-- Embeds `df.groupby("date")["value"].mean()`: one row per distinct calendar day
(pandas sorts group keys ascending), carrying the mean of that day's values. -/
def group_mean_by_date (rows : List (ℤ × ℚ)) : List (ℤ × ℚ) :=
  (sort_by (fun a b => decide (a ≤ b)) (dedup_seen [] (rows.map Prod.fst))).map (fun d =>
    (d, mean_of ((rows.filter (fun r => r.1 == d)).map Prod.snd)))

/-- Embeds `daily_values[-7:]`: the last 7 entries of the daily series. -/
def last7 (daily_values : List (ℤ × ℚ)) : List (ℤ × ℚ) :=
  daily_values.drop (daily_values.length - 7)

/-- Sample variance with `ddof=1` (`pandas Series.std` squared); the source's
`recent_std` is its square root. -/
def sample_variance (vs : List ℚ) : ℚ :=
  (vs.map (fun v => (v - mean_of vs) ^ 2)).sum / ((vs.length - 1 : ℕ) : ℚ)

/-- One `{low, high}` confidence-interval entry. -/
structure ConfidenceInterval where
  low : ℚ
  high : ℚ
deriving DecidableEq

/-- The success shape of `run_forecasting` (shared by the ARIMA and the
moving-average fallback paths). -/
structure ForecastOk where
  forecast_dates : List ℤ
  forecast_values : List ℚ
  confidence_intervals : List ConfidenceInterval
  metric_name : String
  model_type : String
  note : Option String
deriving DecidableEq

/-- Result of `run_forecasting`: either the success record or the in-band
insufficient-data error (which carries `forecast_values = []`). -/
inductive ForecastResult where
  | ok : ForecastOk → ForecastResult
  | insufficient : String → Nat → ForecastResult
deriving DecidableEq

def ForecastResult.forecast_values : ForecastResult → List ℚ
  | .ok r => r.forecast_values
  | .insufficient _ _ => []

def ForecastResult.forecast_dates : ForecastResult → List ℤ
  | .ok r => r.forecast_dates
  | .insufficient _ _ => []

def ForecastResult.confidence_intervals : ForecastResult → List ConfidenceInterval
  | .ok r => r.confidence_intervals
  | .insufficient _ _ => []

/-- A fitted ARIMA model as statsmodels exposes it to `run_forecasting`:
`forecast(steps=n)` means and `get_forecast(steps=n).conf_int(alpha=0.05)`
interval rows.  Its contracts (row counts equal `steps`; each row is
`mean ± z·se` hence ordered) appear as theorem hypotheses. -/
structure ArimaFit where
  forecastMeans : Nat → List ℚ
  confInt : Nat → List (ℚ × ℚ)

/-- Embeds `_simple_forecast_fallback`: repeat the mean of the last 7 daily values,
with bounds `mean ± 1.96·std` of those values.  `recent_std` is the sample
standard deviation computed by pandas, passed in exactly (its square is
`sample_variance` of the same 7 values); `1.96` is exactly `49/25`. -/
def simple_forecast_fallback (daily_values : List (ℤ × ℚ)) (recent_std : ℚ)
    (forecast_days : Nat) (metric_name : String) : ForecastOk :=
  let recent_avg := mean_of ((last7 daily_values).map Prod.snd)
  let last_date := (daily_values.map Prod.fst).getLastD 0
  { forecast_dates := (List.range forecast_days).map (fun i : ℕ => last_date + ((i : ℤ) + 1))
    forecast_values := List.replicate forecast_days recent_avg
    confidence_intervals := (List.range forecast_days).map (fun _ =>
      { low := recent_avg - 49/25 * recent_std, high := recent_avg + 49/25 * recent_std })
    metric_name := metric_name
    model_type := "Simple Moving Average (Fallback)"
    note := some "ARIMA model failed, using simple moving average" }

/-- Embeds `run_forecasting` after the database fetch: `raw` is the fetched rows
(day, coercible value?), `fit` is the ARIMA fit (`none` models the fit
raising, which the source recovers via the fallback), `fallback_std` is the
standard deviation the fallback would use.  Mirrors the source's two
insufficiency checks (raw count before coercion, distinct daily count after). -/
def run_forecasting (raw : List (ℤ × Option ℚ)) (forecast_days : Nat)
    (fit : Option ArimaFit) (fallback_std : ℚ) (metric_name : String) : ForecastResult :=
  if raw.length < 14 then
    .insufficient "Insufficient data for forecasting. Need at least 14 data points." raw.length
  else
    let daily_values := group_mean_by_date (numeric_rows raw)
    if daily_values.length < 14 then
      .insufficient "Insufficient daily data points for ARIMA. Need at least 14 days." daily_values.length
    else
      match fit with
      | some f =>
        let last_date := (daily_values.map Prod.fst).getLastD 0
        .ok { forecast_dates := (List.range forecast_days).map (fun i : ℕ => last_date + ((i : ℤ) + 1))
              forecast_values := f.forecastMeans forecast_days
              confidence_intervals := (f.confInt forecast_days).map (fun p => ⟨p.1, p.2⟩)
              metric_name := metric_name
              model_type := "ARIMA"
              note := none }
      | none => .ok (simple_forecast_fallback daily_values fallback_std forecast_days metric_name)

/-- The 14-day constant series used to exercise the degenerate fallback case. -/
def const14_raw : List (ℤ × Option ℚ) :=
  [(0, some 70), (1, some 70), (2, some 70), (3, some 70), (4, some 70), (5, some 70),
   (6, some 70), (7, some 70), (8, some 70), (9, some 70), (10, some 70), (11, some 70),
   (12, some 70), (13, some 70)]

/-! ## Anomaly tool (`api/tools/anomaly_detection.py`) -/

/-- The success shape of `detect_anomalies`. -/
structure AnomalyOk where
  anomalies_found : Bool
  anomaly_count : Nat
  anomaly_dates : List String
  anomaly_values : List ℚ
  mean_value : ℚ
  std_value : ℚ
  total_data_points : Nat
deriving DecidableEq

/-- Result of `detect_anomalies`: success record or the in-band
insufficient-data error (which carries `anomalies_found = false`). -/
inductive AnomalyResult where
  | ok : AnomalyOk → AnomalyResult
  | insufficient : String → Nat → AnomalyResult
deriving DecidableEq

/-- Embeds `detect_anomalies` after the database fetch: `rows` is the fetched
`(timestamp, value?)` list (`none` models a value `float()` rejects, which
the source skips), `predictions` is IsolationForest's `fit_predict` output
over the surviving values (library contract: same length; `-1` = outlier),
`std_value` is `np.std` of the values (a square root, passed in exactly). -/
def detect_anomalies (rows : List (String × Option ℚ)) (predictions : List ℤ)
    (std_value : ℚ) : AnomalyResult :=
  if rows.length < 5 then
    .insufficient "Insufficient data. Need at least 5 data points." rows.length
  else
    let values := rows.filterMap Prod.snd
    let timestamps := (rows.filter (fun r => r.2.isSome)).map Prod.fst
    if values.length < 5 then
      .insufficient "Insufficient numeric data. Need at least 5 data points." values.length
    else
      let anomaly_indices := (List.range predictions.length).filter
        (fun i => predictions.getD i 0 == -1)
      .ok { anomalies_found := decide (0 < anomaly_indices.length)
            anomaly_count := anomaly_indices.length
            anomaly_dates := anomaly_indices.map (fun i => timestamps.getD i "")
            anomaly_values := anomaly_indices.map (fun i => values.getD i 0)
            mean_value := mean_of values
            std_value := std_value
            total_data_points := values.length }

/-! ## Tool results and the dispatcher (`gemini_orchestrator.py`, `_execute_function`) -/

/-- JSON-like values carried in tool arguments and tool result dictionaries. -/
inductive JVal where
  | s : String → JVal
  | num : ℚ → JVal
  | boolean : Bool → JVal
  | arr : List JVal → JVal
  | obj : List (String × JVal) → JVal

/-- Association-list view of a Python `dict` (insertion ordered). -/
def dictLookup {α : Type} (d : List (String × α)) (k : String) : Option α :=
  (d.find? (fun p => p.1 == k)).map Prod.snd

/-- Assignment `d[k] = v` on a Python `dict`: overwrite in place if the key exists
(keeping its position), append otherwise. -/
def dictInsert {α : Type} (d : List (String × α)) (k : String) (v : α) :
    List (String × α) :=
  if d.any (fun p => p.1 == k) then d.map (fun p => if p.1 == k then (k, v) else p)
  else d ++ [(k, v)]

/-- The five tool implementations as the dispatcher sees them.  Each returns
its result dictionary or raises (`Except.error` = a Python exception whose
rendered message is the payload).  `external_research` is the only one
without a `user_id` parameter. -/
structure Tools where
  detect_anomalies : String → List (String × JVal) → Except String (List (String × JVal))
  find_correlations : String → List (String × JVal) → Except String (List (String × JVal))
  run_forecasting : String → List (String × JVal) → Except String (List (String × JVal))
  search_private_journal : String → List (String × JVal) → Except String (List (String × JVal))
  external_research : List (String × JVal) → Except String (List (String × JVal))

/-- Python keyword binding for `f(user_id=user_id, **arguments)`: a `user_id`
key in `arguments` is a duplicate keyword (`TypeError`), an argument outside
the parameter list is an unexpected keyword (`TypeError`), and a missing
required argument is a `TypeError`; otherwise the tool body runs with the
dispatcher-injected `user_id`. -/
def call_with_user_id (f : String → List (String × JVal) → Except String (List (String × JVal)))
    (params required : List String) (user_id : String)
    (arguments : List (String × JVal)) : Except String (List (String × JVal)) :=
  if arguments.any (fun p => p.1 == "user_id") then
    Except.error "TypeError: got multiple values for keyword argument"
  else if !(arguments.all (fun p => params.contains p.1)) then
    Except.error "TypeError: got an unexpected keyword argument"
  else if !(required.all (fun k => arguments.any (fun p => p.1 == k))) then
    Except.error "TypeError: missing a required argument"
  else f user_id arguments

/-- Python keyword binding for `f(**arguments)` (the `external_research`
case, whose only parameter is `query`). -/
def call_no_user_id (f : List (String × JVal) → Except String (List (String × JVal)))
    (params required : List String)
    (arguments : List (String × JVal)) : Except String (List (String × JVal)) :=
  if !(arguments.all (fun p => params.contains p.1)) then
    Except.error "TypeError: got an unexpected keyword argument"
  else if !(required.all (fun k => arguments.any (fun p => p.1 == k))) then
    Except.error "TypeError: missing a required argument"
  else f arguments

/-- Embeds `_execute_function`: dispatch on the tool name, injecting the
authenticated `user_id` for every tool except `external_research`; unknown
names yield an in-band error dictionary; any exception is caught and
converted to an error dictionary. -/
def execute_function (tools : Tools) (function_name user_id : String)
    (arguments : List (String × JVal)) : List (String × JVal) :=
  let call : Except String (List (String × JVal)) :=
    if function_name == "detect_anomalies" then
      call_with_user_id tools.detect_anomalies
        ["metric_name", "lookback_days", "contamination"] ["metric_name"] user_id arguments
    else if function_name == "find_correlations" then
      call_with_user_id tools.find_correlations
        ["lookback_days", "min_correlation"] [] user_id arguments
    else if function_name == "run_forecasting" then
      call_with_user_id tools.run_forecasting
        ["metric_name", "forecast_days", "lookback_days"] ["metric_name"] user_id arguments
    else if function_name == "search_private_journal" then
      call_with_user_id tools.search_private_journal
        ["query", "n_results"] ["query"] user_id arguments
    else if function_name == "external_research" then
      call_no_user_id tools.external_research ["query"] ["query"] arguments
    else
      Except.ok [("error", JVal.s ("Unknown function: " ++ function_name))]
  match call with
  | Except.ok r => r
  | Except.error e => [("error", JVal.s e)]

/-! ## Orchestration loop (`gemini_orchestrator.py`, `process_query`) -/

/-- One tool-call request produced by the model. -/
structure FunctionCall where
  name : String
  args : List (String × JVal)

/-- One part of a model response: its text (possibly empty) and an optional
tool-call request. -/
structure Part where
  text : String
  function_call : Option FunctionCall

/-- One model response (`response.candidates[0].content`). -/
structure ModelResponse where
  parts : List Part

/-- Embeds `response.text`: the text the model produced in this turn (concatenation
of the text of its parts; possibly empty). -/
def response_text (r : ModelResponse) : String :=
  (r.parts.map Part.text).foldl (fun a b => a ++ b) ""

/-- The tool calls contained in a response (the loop's part scan). -/
def get_calls (r : ModelResponse) : List FunctionCall :=
  r.parts.filterMap Part.function_call

/-- A message the orchestrator sends to the model: the user query, or one
batched tool-response message carrying every `(name, result)` of a round. -/
inductive Msg where
  | userQuery : String → Msg
  | toolBatch : List (String × List (String × JVal)) → Msg

/-- Loop bookkeeping: ordered tool provenance, the name → result dictionary
(last result wins), and the trace of messages sent to the model. -/
structure LoopState where
  tools_used : List String
  tool_results : List (String × List (String × JVal))
  sent : List Msg

/-- The body of one loop round: execute every collected call via the
dispatcher (in request order), record provenance and results, and append the
single batched tool-response message. -/
def exec_round (tools : Tools) (user_id : String) (calls : List FunctionCall)
    (st : LoopState) : LoopState :=
  let executed := calls.map (fun c => (c.name, execute_function tools c.name user_id c.args))
  { tools_used := st.tools_used ++ calls.map FunctionCall.name
    tool_results := executed.foldl (fun d p => dictInsert d p.1 p.2) st.tool_results
    sent := st.sent ++ [Msg.toolBatch executed] }

/-- The `while iteration < max_iterations and response.candidates[0].content.parts`
loop.  `fuel` is the remaining iteration budget (10 at entry), `send_idx`
numbers the next `send_message` round-trip, and `llm k` is the scripted
model's answer to the `k`-th message (`Except.error` = a transport failure
raised out of `send_message`). -/
def loop_rounds (tools : Tools) (llm : Nat → Except String ModelResponse) (user_id : String) :
    Nat → Nat → ModelResponse → LoopState → Except String (ModelResponse × LoopState)
  | 0, _, resp, st => Except.ok (resp, st)
  | fuel + 1, send_idx, resp, st =>
    if resp.parts.isEmpty then Except.ok (resp, st)
    else
      let calls := get_calls resp
      if calls.isEmpty then Except.ok (resp, st)
      else
        match llm send_idx with
        | Except.error e => Except.error e
        | Except.ok resp2 =>
          loop_rounds tools llm user_id fuel (send_idx + 1) resp2 (exec_round tools user_id calls st)

/-- The caller-facing result of `process_query`. -/
structure QueryResult where
  answer : String
  tools_used : List String
  tool_results : List (String × List (String × JVal))
  sources : JVal
  error : Option String

/-- The citation surfacing of `process_query` (lines 443–447): if
`external_research` is in `tools_used` and in `tool_results` and its result
has a `citations` key, that value becomes the top-level `sources`, else `[]`. -/
def build_sources (tools_used : List String)
    (tool_results : List (String × List (String × JVal))) : JVal :=
  if tools_used.contains "external_research" then
    match dictLookup tool_results "external_research" with
    | some research_result =>
      match dictLookup research_result "citations" with
      | some v => v
      | none => JVal.arr []
    | none => JVal.arr []
  else JVal.arr []

/-- The body of `process_query`'s `try` block: initial send, the bounded
loop with `max_iterations = 10`, then result assembly. -/
def process_query_run (tools : Tools) (llm : Nat → Except String ModelResponse)
    (user_id query : String) : Except String (QueryResult × List Msg) :=
  match llm 0 with
  | Except.error e => Except.error e
  | Except.ok resp0 =>
    match loop_rounds tools llm user_id 10 1 resp0 ⟨[], [], [Msg.userQuery query]⟩ with
    | Except.error e => Except.error e
    | Except.ok (resp, st) =>
      Except.ok ({ answer := response_text resp
                   tools_used := st.tools_used
                   tool_results := st.tool_results
                   sources := build_sources st.tools_used st.tool_results
                   error := none }, st.sent)

/-- Embeds `process_query` with its message trace: the `try` body, or on any
escaping exception the degraded-but-valid apology response. -/
def process_query_full (tools : Tools) (llm : Nat → Except String ModelResponse)
    (user_id query : String) : QueryResult × List Msg :=
  match process_query_run tools llm user_id query with
  | Except.ok r => r
  | Except.error e =>
    ({ answer := "I apologize, but I encountered an error processing your query: " ++ e
       tools_used := []
       tool_results := []
       sources := JVal.arr []
       error := some e }, [])

/-- Embeds `process_query`: the caller-facing entry point. -/
def process_query (tools : Tools) (llm : Nat → Except String ModelResponse)
    (user_id query : String) : QueryResult :=
  (process_query_full tools llm user_id query).1

/-- Shape check for the spec's `sources: [{url, title}]` claim: a list whose
every element is an object carrying `url` and `title` keys. -/
def is_url_title_obj : JVal → Bool
  | JVal.obj fields => (fields.any (fun p => p.1 == "url")) && (fields.any (fun p => p.1 == "title"))
  | _ => false

def is_url_title_list : JVal → Bool
  | JVal.arr items => items.all is_url_title_obj
  | _ => false

/-! ## Journal search (`api/tools/journal_search.py`) and the user-scoped
vector query (`api/services/pinecone_client.py`) -/

/-- A `journal_entries` table row. -/
structure JournalRow where
  id : String
  user_id : String
  date : String
  content : String
deriving DecidableEq

/-- One formatted search hit. -/
structure JournalMatch where
  entry_id : String
  date : String
  content : String
  similarity : ℚ
  search_method : Option String
deriving DecidableEq

/-- A vector-index record: metadata plus the similarity score the index
would report for the current query. -/
structure VectorRecord where
  user_id : String
  entry_id : String
  date : String
  content : String
  score : ℚ
deriving DecidableEq

/-- The Pinecone query issued by `search_journal_entries`, with the index's
filter semantics modelled from the spec (§6): only records whose metadata
`user_id` exactly matches the filter are candidates, at most `top_k` return. -/
def index_query (index : List VectorRecord) (top_k : Nat) (filter_user_id : String) :
    List VectorRecord :=
  (index.filter (fun v => v.user_id == filter_user_id)).take top_k

/-- Embeds `search_journal_entries`: query the index with the exact-match
`user_id` filter and format each match. -/
def search_journal_entries (index : List VectorRecord) (user_id _query : String)
    (n_results : Nat) : List JournalMatch :=
  (index_query index n_results user_id).map (fun m =>
    { entry_id := m.entry_id, date := m.date, content := m.content
      similarity := m.score, search_method := none })

/-- Python `str.lower()` on the character sequence. -/
def to_lower_chars (s : String) : List Char := s.data.map Char.toLower

/-- SQL `LIKE` pattern matching over characters: `%` matches any sequence,
`_` matches any single character, anything else matches itself.  This is
what the source's `.ilike("content", f"%{query}%")` performs (ILIKE =
case-insensitive LIKE, modelled by lower-casing both sides). -/
def like_match : List Char → List Char → Bool
  | [], cs => cs.isEmpty
  | p :: ps, cs =>
    if p = '%' then cs.tails.any (fun t => like_match ps t)
    else
      match cs with
      | [] => false
      | c :: cs2 => (if p = '_' then true else p == c) && like_match ps cs2

/-- The `ilike` column filter: the lower-cased content must match the
lower-cased pattern in full. -/
def ilike_filter (content pattern : String) : Bool :=
  like_match (to_lower_chars pattern) (to_lower_chars content)

/-- Literal prefix comparison of character lists. -/
def starts_with : List Char → List Char → Bool
  | [], _ => true
  | _ :: _, [] => false
  | a :: as, b :: bs => a == b && starts_with as bs

/-- Literal contiguous-subsequence (substring) check. -/
def contains_seq (needle : List Char) : List Char → Bool
  | [] => starts_with needle []
  | c :: cs => starts_with needle (c :: cs) || contains_seq needle cs

/-- Literal case-insensitive substring check (what the spec calls the
fallback's search). -/
def contains_ci (content q : String) : Bool :=
  contains_seq (to_lower_chars q) (to_lower_chars content)

/-- The output dictionary of `search_private_journal` (the fields the
claims are about). -/
structure JournalSearchOutput where
  query : String
  results : List JournalMatch
  count : Nat
  search_method : Option String
deriving DecidableEq

/-- Embeds `search_private_journal` after its two external reads: `table` is the
`journal_entries` relation, `pinecone_results` the semantic matches the
vector search returned.  Mirrors the source: short-circuit when the user has
no entries; otherwise on zero semantic matches run the `ilike` keyword
fallback (limited to `n_results`) and mark its hits with `similarity = 0.0`
and `search_method = "keyword_fallback"`. -/
def search_private_journal_run (table : List JournalRow)
    (pinecone_results : List JournalMatch) (user_id query : String)
    (n_results : Nat) : JournalSearchOutput :=
  let supabase_entries := table.filter (fun r => r.user_id == user_id)
  if supabase_entries.isEmpty then
    { query := query, results := [], count := 0, search_method := none }
  else
    if pinecone_results.isEmpty then
      let fallback_entries :=
        (supabase_entries.filter (fun e => ilike_filter e.content ("%" ++ query ++ "%"))).take n_results
      if fallback_entries.isEmpty then
        { query := query, results := [], count := 0, search_method := none }
      else
        let results := fallback_entries.map (fun e =>
          { entry_id := e.id, date := e.date, content := e.content
            similarity := 0, search_method := some "keyword_fallback" })
        { query := query, results := results, count := results.length
          search_method := some "keyword_fallback" }
    else
      { query := query, results := pinecone_results, count := pinecone_results.length
        search_method := none }

/-- An inert tool set whose five implementations ignore their arguments and
return a fixed result dictionary (used to instantiate concrete runs). -/
def inert_tools : Tools :=
  { detect_anomalies := fun _ _ => Except.ok [("status", JVal.s "ok")]
    find_correlations := fun _ _ => Except.ok [("status", JVal.s "ok")]
    run_forecasting := fun _ _ => Except.ok [("status", JVal.s "ok")]
    search_private_journal := fun _ _ => Except.ok [("status", JVal.s "ok")]
    external_research := fun _ => Except.ok [("status", JVal.s "ok")] }

/-- A scripted model that requests the `find_correlations` tool on every
round, indefinitely. -/
def always_call_llm : Nat → Except String ModelResponse :=
  fun _ => Except.ok ⟨[⟨"", some ⟨"find_correlations", []⟩⟩]⟩

/-- Scripted model for the citation-surfacing counterexample: round 0
requests `external_research`, round 1 answers in plain text. -/
def cx7_llm : Nat → Except String ModelResponse :=
  fun k =>
    if k = 0 then Except.ok ⟨[⟨"", some ⟨"external_research", [("query", JVal.s "antihistamines")]⟩⟩]⟩
    else Except.ok ⟨[⟨"Here is what I found.", none⟩]⟩

/-- Tool set for the citation-surfacing counterexample: `external_research`
returns a result whose `citations` value is a list of plain URL strings,
exactly as the source tool builds it. -/
def cx7_tools : Tools :=
  { inert_tools with
    external_research := fun _ => Except.ok
      [("answer", JVal.s "summary"),
       ("citations", JVal.arr [JVal.s "https://example.com/a"]),
       ("sources", JVal.arr [JVal.obj [("url", JVal.s "https://example.com/a"),
                                       ("title", JVal.s "example.com")]])] }

/-- Scripted model for the citation-surfacing witness run. -/
def w7_llm : Nat → Except String ModelResponse :=
  fun k =>
    if k = 0 then Except.ok ⟨[⟨"", some ⟨"external_research", [("query", JVal.s "magnesium")]⟩⟩]⟩
    else Except.ok ⟨[⟨"Done.", none⟩]⟩

/-- Tool set for the citation-surfacing witness run. -/
def w7_tools : Tools :=
  { inert_tools with
    external_research := fun _ => Except.ok
      [("citations", JVal.arr [JVal.s "https://example.org/x", JVal.s "https://example.org/y"])] }

/-! ## Helper lemmas for the structural sort -/

theorem mem_insert_by {α : Type} (le : α → α → Bool) (a x : α) (l : List α) :
    x ∈ insert_by le a l ↔ x = a ∨ x ∈ l := by
  induction l with
  | nil => simp [insert_by]
  | cons b bs ih =>
    simp only [insert_by]
    split
    · simp
    · simp [ih]
      tauto

theorem mem_sort_by {α : Type} (le : α → α → Bool) (x : α) (l : List α) :
    x ∈ sort_by le l ↔ x ∈ l := by
  induction l with
  | nil => simp [sort_by]
  | cons a as ih => simp [sort_by, mem_insert_by, ih]

theorem pairwise_insert_by {α : Type} (le : α → α → Bool)
    (htot : ∀ a b, le a b || le b a)
    (htrans : ∀ a b c, le a b = true → le b c = true → le a c = true)
    (a : α) (l : List α) (hl : l.Pairwise (fun x y => le x y = true)) :
    (insert_by le a l).Pairwise (fun x y => le x y = true) := by
  induction l with
  | nil => simp [insert_by]
  | cons b bs ih =>
    rw [List.pairwise_cons] at hl
    obtain ⟨hb, hbs⟩ := hl
    simp only [insert_by]
    split
    · rename_i hab
      refine List.pairwise_cons.2 ⟨?_, List.pairwise_cons.2 ⟨hb, hbs⟩⟩
      intro y hy
      rcases List.mem_cons.1 hy with rfl | hy2
      · exact hab
      · exact htrans a b y hab (hb y hy2)
    · rename_i hab
      have hba : le b a = true := by
        have := htot a b
        rcases Bool.or_eq_true_iff.1 this with h1 | h1
        · exact absurd h1 hab
        · exact h1
      refine List.pairwise_cons.2 ⟨?_, ih hbs⟩
      intro y hy
      rw [mem_insert_by] at hy
      rcases hy with rfl | hy2
      · exact hba
      · exact hb y hy2

theorem pairwise_sort_by {α : Type} (le : α → α → Bool)
    (htot : ∀ a b, le a b || le b a)
    (htrans : ∀ a b c, le a b = true → le b c = true → le a c = true)
    (l : List α) : (sort_by le l).Pairwise (fun x y => le x y = true) := by
  induction l with
  | nil => simp [sort_by]
  | cons a as ih => exact pairwise_insert_by le htot htrans a (sort_by le as) ih

/-! ## Claim theorems -/

/-- C9: the metric-name normalizer is total and deterministic by construction
(it is a pure function); for every name in the alias table it is idempotent,
and for every input whose lower-cased, stripped form has no alias-table match
it returns the input unchanged. -/
theorem normalize_metric_name_spec :
    (∀ p ∈ metric_mapping,
        normalize_metric_name (normalize_metric_name p.1) = normalize_metric_name p.1) ∧
    (∀ s : String, metric_mapping.find? (fun p => p.1 == py_lower_strip s) = none →
        normalize_metric_name s = s) := by
  constructor
  · decide
  · intro s h
    simp only [normalize_metric_name]
    rw [h]

/-- Witness for C9 at the concrete inputs "bmi" (an alias-table name) and
"steps" (a canonical name with no alias-table match). -/
theorem normalize_metric_name_spec_witness :
    (("bmi", "body_mass_index") ∈ metric_mapping ∧
        normalize_metric_name (normalize_metric_name "bmi") = normalize_metric_name "bmi") ∧
    (metric_mapping.find? (fun p => p.1 == py_lower_strip "steps") = none ∧
        normalize_metric_name "steps" = "steps") :=
  ⟨⟨by decide, normalize_metric_name_spec.1 ("bmi", "body_mass_index") (by decide)⟩,
   ⟨by decide, normalize_metric_name_spec.2 "steps" (by decide)⟩⟩

/-- C6: every entry of the `correlations` list meets the `min_correlation`
magnitude threshold (entries are built only from non-NaN coefficients, which
the embedding enforces by construction: `NaN` is `none` and is skipped), its
`strength` field is "strong" for `|r| ≥ 0.7`, "moderate" for `0.4 ≤ |r| < 0.7`,
else "weak", and the list is sorted descending by `|correlation|`.  With
`min_correlation = 0.7` it follows no entry has `|correlation| < 0.7`. -/
theorem find_correlations_spec (metrics : List String) (corr : Nat → Nat → Option ℚ)
    (min_correlation : ℚ) :
    (∀ e ∈ find_correlations_list metrics corr min_correlation,
        min_correlation ≤ |e.correlation| ∧
        e.strength = (if 7/10 ≤ |e.correlation| then "strong"
          else if 2/5 ≤ |e.correlation| then "moderate" else "weak")) ∧
    (find_correlations_list metrics corr min_correlation).Pairwise
      (fun a b => |b.correlation| ≤ |a.correlation|) := by
  constructor
  · intro e he
    rw [find_correlations_list, mem_sort_by] at he
    simp only [extract_correlations, List.mem_flatMap, List.mem_filterMap, List.mem_range] at he
    obtain ⟨i, hi, j, hj, hij⟩ := he
    by_cases hlt : i < j
    · rw [if_pos hlt, Option.bind_eq_some] at hij
      obtain ⟨c, hc, hsome⟩ := hij
      by_cases hge : |c| ≥ min_correlation
      · rw [if_pos hge] at hsome
        cases hsome
        refine ⟨hge, ?_⟩
        simp only [interpret_correlation, ge_iff_le]
      · rw [if_neg hge] at hsome
        cases hsome
    · rw [if_neg hlt] at hij
      cases hij
  · have hs := pairwise_sort_by
      (fun a b : CorrelationEntry => decide (|b.correlation| ≤ |a.correlation|))
      (fun a b => by
        simp only [Bool.or_eq_true, decide_eq_true_eq]
        exact le_total _ _)
      (fun a b c hab hbc => by
        simp only [decide_eq_true_eq] at *
        exact le_trans hbc hab)
      (extract_correlations metrics corr min_correlation)
    rw [find_correlations_list]
    exact hs.imp (fun h => of_decide_eq_true h)

/-- Witness for C6: a concrete two-metric matrix with coefficient −0.8 and
threshold 0.7; the emitted entry satisfies the magnitude bound. -/
theorem find_correlations_spec_witness :
    ((⟨"sleep_duration", "heart_rate_resting", -(4/5), "strong", "negative"⟩ : CorrelationEntry) ∈
        find_correlations_list ["sleep_duration", "heart_rate_resting"]
          (fun i j => if i = 0 ∧ j = 1 then some (-(4/5)) else none) (7/10)) ∧
    (7/10 : ℚ) ≤
      |(⟨"sleep_duration", "heart_rate_resting", -(4/5), "strong", "negative"⟩ : CorrelationEntry).correlation| := by
  have hmem : (⟨"sleep_duration", "heart_rate_resting", -(4/5), "strong", "negative"⟩ : CorrelationEntry) ∈
      find_correlations_list ["sleep_duration", "heart_rate_resting"]
        (fun i j => if i = 0 ∧ j = 1 then some (-(4/5)) else none) (7/10) := by
    norm_num [find_correlations_list, extract_correlations, sort_by, insert_by,
      interpret_correlation, List.range_succ, List.filterMap_cons, abs_of_nonpos]
  exact ⟨hmem,
    ((find_correlations_spec ["sleep_duration", "heart_rate_resting"]
      (fun i j => if i = 0 ∧ j = 1 then some (-(4/5)) else none) (7/10)).1
      ⟨"sleep_duration", "heart_rate_resting", -(4/5), "strong", "negative"⟩ hmem).1⟩

/-- C4 (amended): with at least 14 raw samples and at least 14 distinct daily
aggregates, `run_forecasting` succeeds and its output satisfies
`len(forecast_dates) = len(forecast_values) = len(confidence_intervals)
 = forecast_days` on both the ARIMA path (given the statsmodels contracts
that `forecast(steps)` and `conf_int` return `steps` rows with `low ≤ high`)
and the fallback path, and every confidence interval satisfies `low ≤ high`
(strictness can fail: see the counterexample). -/
theorem run_forecasting_amended (raw : List (ℤ × Option ℚ)) (forecast_days : Nat)
    (fit : Option ArimaFit) (fallback_std : ℚ) (metric_name : String)
    (hstd : 0 ≤ fallback_std)
    (hfit : ∀ f, fit = some f →
      (f.forecastMeans forecast_days).length = forecast_days ∧
      (f.confInt forecast_days).length = forecast_days ∧
      ∀ p ∈ f.confInt forecast_days, p.1 ≤ p.2)
    (hraw : ¬ raw.length < 14)
    (hdaily : ¬ (group_mean_by_date (numeric_rows raw)).length < 14) :
    ∃ ok, run_forecasting raw forecast_days fit fallback_std metric_name = ForecastResult.ok ok ∧
      ok.forecast_dates.length = forecast_days ∧
      ok.forecast_values.length = forecast_days ∧
      ok.confidence_intervals.length = forecast_days ∧
      ∀ ci ∈ ok.confidence_intervals, ci.low ≤ ci.high := by
  simp only [run_forecasting]
  rw [if_neg hraw, if_neg hdaily]
  cases fit with
  | some f =>
    obtain ⟨h1, h2, h3⟩ := hfit f rfl
    refine ⟨_, rfl, ?_, ?_, ?_, ?_⟩
    · simp only [List.length_map, List.length_range]
    · exact h1
    · simp only [List.length_map]; exact h2
    · intro ci hci
      simp only [List.mem_map] at hci
      obtain ⟨p, hp, rfl⟩ := hci
      exact h3 p hp
  | none =>
    refine ⟨_, rfl, ?_, ?_, ?_, ?_⟩
    · simp only [simple_forecast_fallback, List.length_map, List.length_range]
    · simp only [simple_forecast_fallback, List.length_replicate]
    · simp only [simple_forecast_fallback, List.length_map, List.length_range]
    · intro ci hci
      simp only [simple_forecast_fallback, List.mem_map] at hci
      obtain ⟨i, hi, rfl⟩ := hci
      have hc : 0 ≤ 49/25 * fallback_std := mul_nonneg (by norm_num) hstd
      simp only
      linarith

/-- Witness for C4 (amended) on the constant 14-day series, exercising the
fallback path (whose standard deviation is 0, the nonnegative square root of
the computed sample variance 0). -/
theorem run_forecasting_amended_witness :
    (0 : ℚ) ≤ 0 ∧ ¬ const14_raw.length < 14 ∧
    ¬ (group_mean_by_date (numeric_rows const14_raw)).length < 14 ∧
    ∃ ok, run_forecasting const14_raw 7 none 0 "steps" = ForecastResult.ok ok ∧
      ok.forecast_dates.length = 7 ∧ ok.forecast_values.length = 7 ∧
      ok.confidence_intervals.length = 7 ∧
      ∀ ci ∈ ok.confidence_intervals, ci.low ≤ ci.high := by
  have hraw : ¬ const14_raw.length < 14 := by decide
  have hdaily : ¬ (group_mean_by_date (numeric_rows const14_raw)).length < 14 := by
    simp only [group_mean_by_date, List.length_map]
    decide
  exact ⟨le_refl 0, hraw, hdaily,
    run_forecasting_amended const14_raw 7 none 0 "steps" (le_refl 0)
      (fun f h => by cases h) hraw hdaily⟩

/-- C4 counterexample: on a constant 14-day series the ARIMA fallback's
sample standard deviation is 0 (the sample variance evaluates to 0), so
every confidence interval degenerates to `low = high = 70` and the claimed
strict `low < high` fails. -/
theorem run_forecasting_ci_counterexample :
    sample_variance ((last7 (group_mean_by_date (numeric_rows const14_raw))).map Prod.snd) = 0 ∧
    run_forecasting const14_raw 7 none 0 "steps" = ForecastResult.ok
      { forecast_dates := [14, 15, 16, 17, 18, 19, 20]
        forecast_values := List.replicate 7 70
        confidence_intervals := List.replicate 7 ⟨70, 70⟩
        metric_name := "steps"
        model_type := "Simple Moving Average (Fallback)"
        note := some "ARIMA model failed, using simple moving average" } ∧
    ¬ ((70 : ℚ) < (70 : ℚ)) := by
  have hdaily : group_mean_by_date (numeric_rows const14_raw) =
      [(0, 70), (1, 70), (2, 70), (3, 70), (4, 70), (5, 70), (6, 70),
       (7, 70), (8, 70), (9, 70), (10, 70), (11, 70), (12, 70), (13, 70)] := by
    norm_num [group_mean_by_date, numeric_rows, const14_raw, mean_of,
      dedup_seen, sort_by, insert_by, List.filterMap_cons, List.filter_cons]
  refine ⟨?_, ?_, lt_irrefl 70⟩
  · rw [hdaily]
    norm_num [last7, sample_variance, mean_of]
  · simp only [run_forecasting]
    rw [if_neg (by decide : ¬ const14_raw.length < 14), hdaily]
    rw [if_neg (by decide :
      ¬ ([(0, (70:ℚ)), (1, 70), (2, 70), (3, 70), (4, 70), (5, 70), (6, 70),
          (7, 70), (8, 70), (9, 70), (10, 70), (11, 70), (12, 70), (13, 70)] :
          List (ℤ × ℚ)).length < 14)]
    norm_num [simple_forecast_fallback, last7, mean_of, List.range_succ,
      List.replicate, List.getLastD]

/-- C10: every error-free `detect_anomalies` result (given the
scikit-learn contract that `fit_predict` returns one label per sample) has
`anomalies_found` true iff `anomaly_count > 0`, `anomaly_dates` and
`anomaly_values` of length exactly `anomaly_count`, and each anomaly pairs
the value and the timestamp at one common index of the surviving numeric
samples. -/
theorem detect_anomalies_spec (rows : List (String × Option ℚ)) (predictions : List ℤ)
    (std_value : ℚ) (out : AnomalyOk)
    (hlen : predictions.length = (rows.filterMap Prod.snd).length)
    (hout : detect_anomalies rows predictions std_value = AnomalyResult.ok out) :
    (out.anomalies_found = true ↔ 0 < out.anomaly_count) ∧
    out.anomaly_dates.length = out.anomaly_count ∧
    out.anomaly_values.length = out.anomaly_count ∧
    ∀ k, k < out.anomaly_count →
      ∃ i, i < (rows.filterMap Prod.snd).length ∧ predictions.getD i 0 = -1 ∧
        out.anomaly_dates.getD k "" =
          ((rows.filter (fun r => r.2.isSome)).map Prod.fst).getD i "" ∧
        out.anomaly_values.getD k 0 = (rows.filterMap Prod.snd).getD i 0 := by
  simp only [detect_anomalies] at hout
  split at hout
  · cases hout
  · split at hout
    · cases hout
    · simp only [AnomalyResult.ok.injEq] at hout
      subst hout
      refine ⟨by simp, by simp, by simp, ?_⟩
      intro k hk
      simp only [List.length_map] at hk
      set idxs := (List.range predictions.length).filter
        (fun i => predictions.getD i 0 == -1) with hidxs
      have hmem : idxs.getD k 0 ∈ idxs := by
        have hg := List.getElem_mem (l := idxs) (n := k) hk
        rw [List.getD_eq_getElem?_getD, List.getElem?_eq_getElem hk]
        exact hg
      have hfilter := List.mem_filter.1 hmem
      have hrange : idxs.getD k 0 < predictions.length :=
        List.mem_range.1 hfilter.1
      refine ⟨idxs.getD k 0, ?_, ?_, ?_, ?_⟩
      · rw [← hlen]; exact hrange
      · have hx := hfilter.2
        simp only [beq_iff_eq] at hx
        exact hx
      · simp [List.getD_eq_getElem?_getD, List.getElem?_map,
          List.getElem?_eq_getElem hk]
      · simp [List.getD_eq_getElem?_getD, List.getElem?_map,
          List.getElem?_eq_getElem hk]

/-- Witness for C10 on five concrete samples with one outlier label. -/
theorem detect_anomalies_spec_witness :
    ([1, -1, 1, 1, 1] : List ℤ).length =
      (([("t0", some 70), ("t1", some 160), ("t2", some 71), ("t3", some 69), ("t4", some 70)] :
        List (String × Option ℚ)).filterMap Prod.snd).length ∧
    ∃ out, detect_anomalies
        [("t0", some 70), ("t1", some 160), ("t2", some 71), ("t3", some 69), ("t4", some 70)]
        [1, -1, 1, 1, 1] 0 = AnomalyResult.ok out ∧
      (out.anomalies_found = true ↔ 0 < out.anomaly_count) ∧
      out.anomaly_dates.length = out.anomaly_count := by
  have hlen : ([1, -1, 1, 1, 1] : List ℤ).length =
      (([("t0", some 70), ("t1", some 160), ("t2", some 71), ("t3", some 69), ("t4", some 70)] :
        List (String × Option ℚ)).filterMap Prod.snd).length := by
    simp [List.filterMap_cons]
  obtain ⟨out, hout⟩ : ∃ out, detect_anomalies
      [("t0", some 70), ("t1", some 160), ("t2", some 71), ("t3", some 69), ("t4", some 70)]
      [1, -1, 1, 1, 1] 0 = AnomalyResult.ok out := ⟨_, rfl⟩
  have h := detect_anomalies_spec _ _ 0 out hlen hout
  exact ⟨hlen, out, hout, h.1, h.2.1⟩

/-- C2: (i) the dispatcher's result depends on the tool implementations only
through their behaviour at the authenticated `user_id` — two tool sets that
agree at that user (and on the user-independent `external_research`) produce
identical dispatch results, so no tool execution can read another user's
data; (ii) an LLM-supplied `user_id` argument can never be used: for every
registered tool it makes the call fail with an in-band error dictionary
(Python rejects the duplicate/unexpected keyword); (iii) the vector-index
query is filtered by exact match on the given `user_id`, so every returned
match comes from a record of that user. -/
theorem user_id_isolation :
    (∀ tools tools2 : Tools, ∀ user_id function_name : String,
      ∀ args : List (String × JVal),
      tools.detect_anomalies user_id = tools2.detect_anomalies user_id →
      tools.find_correlations user_id = tools2.find_correlations user_id →
      tools.run_forecasting user_id = tools2.run_forecasting user_id →
      tools.search_private_journal user_id = tools2.search_private_journal user_id →
      tools.external_research = tools2.external_research →
      execute_function tools function_name user_id args =
        execute_function tools2 function_name user_id args) ∧
    (∀ tools : Tools, ∀ user_id function_name : String,
      ∀ args : List (String × JVal),
      function_name ∈ ["detect_anomalies", "find_correlations", "run_forecasting",
        "search_private_journal", "external_research"] →
      args.any (fun p => p.1 == "user_id") = true →
      ∃ msg, execute_function tools function_name user_id args = [("error", JVal.s msg)]) ∧
    (∀ index : List VectorRecord, ∀ user_id query : String, ∀ n_results : Nat,
      ∀ m ∈ search_journal_entries index user_id query n_results,
      ∃ v ∈ index, v.user_id = user_id ∧
        m = { entry_id := v.entry_id, date := v.date, content := v.content,
              similarity := v.score, search_method := none }) := by
  refine ⟨?_, ?_, ?_⟩
  · intro tools tools2 user_id function_name args h1 h2 h3 h4 h5
    simp only [execute_function, call_with_user_id, call_no_user_id, h1, h2, h3, h4, h5]
  · intro tools user_id function_name args hmem hany
    have hall : args.all (fun p => (["query"] : List String).contains p.1) = false := by
      rcases List.any_eq_true.1 hany with ⟨p, hp, hpu⟩
      refine List.all_eq_false.2 ⟨p, hp, ?_⟩
      rw [show p.1 = "user_id" by simpa using hpu]
      decide
    fin_cases hmem
    · exact ⟨"TypeError: got multiple values for keyword argument",
        by simp [execute_function, call_with_user_id, hany]⟩
    · exact ⟨"TypeError: got multiple values for keyword argument",
        by simp [execute_function, call_with_user_id, hany]⟩
    · exact ⟨"TypeError: got multiple values for keyword argument",
        by simp [execute_function, call_with_user_id, hany]⟩
    · exact ⟨"TypeError: got multiple values for keyword argument",
        by simp [execute_function, call_with_user_id, hany]⟩
    · refine ⟨"TypeError: got an unexpected keyword argument", ?_⟩
      have hx : execute_function tools "external_research" user_id args =
          match call_no_user_id tools.external_research ["query"] ["query"] args with
          | Except.ok r => r
          | Except.error e => [("error", JVal.s e)] := rfl
      rw [hx, call_no_user_id, hall]
      simp
  · intro index user_id query n_results m hm
    simp only [search_journal_entries, index_query, List.mem_map] at hm
    obtain ⟨v, hv, rfl⟩ := hm
    have hv2 := List.mem_of_mem_take hv
    have hv3 := List.mem_filter.1 hv2
    exact ⟨v, hv3.1, by simpa using hv3.2, rfl⟩

/-- Witness for C2 at concrete inputs: the tool name `detect_anomalies`, an
argument list that tries to smuggle in a `user_id`, and a two-user index. -/
theorem user_id_isolation_witness :
    ("detect_anomalies" ∈ ["detect_anomalies", "find_correlations", "run_forecasting",
        "search_private_journal", "external_research"]) ∧
    (([("user_id", JVal.s "intruder")] : List (String × JVal)).any
        (fun p => p.1 == "user_id") = true) ∧
    (∃ msg, execute_function inert_tools "detect_anomalies" "alice"
        [("user_id", JVal.s "intruder")] = [("error", JVal.s msg)]) ∧
    (∀ m ∈ search_journal_entries
        [⟨"alice", "e1", "2024-01-01", "slept well", 9/10⟩,
         ⟨"bob", "e9", "2024-01-02", "secret", 8/10⟩] "alice" "sleep" 5,
      ∃ v ∈ ([⟨"alice", "e1", "2024-01-01", "slept well", 9/10⟩,
              ⟨"bob", "e9", "2024-01-02", "secret", 8/10⟩] : List VectorRecord),
        v.user_id = "alice" ∧
        m = { entry_id := v.entry_id, date := v.date, content := v.content,
              similarity := v.score, search_method := none }) := by
  refine ⟨by decide, by decide, ?_, ?_⟩
  · exact user_id_isolation.2.1 inert_tools "alice" "detect_anomalies"
      [("user_id", JVal.s "intruder")] (by decide) (by decide)
  · exact user_id_isolation.2.2
      [⟨"alice", "e1", "2024-01-01", "slept well", 9/10⟩,
       ⟨"bob", "e9", "2024-01-02", "secret", 8/10⟩] "alice" "sleep" 5

/-- C3: when the body of `process_query`'s `try` block raises (for example,
an LLM transport failure), the top-level handler returns the degraded but
well-formed response — an apology string embedding the error, empty
`tools_used`, `tool_results` and `sources`, and an `error` field; the
function is total, so no exception ever reaches the caller. -/
theorem process_query_top_level_catch (tools : Tools)
    (llm : Nat → Except String ModelResponse) (user_id query : String) (e : String)
    (h : process_query_run tools llm user_id query = Except.error e) :
    process_query tools llm user_id query =
      { answer := "I apologize, but I encountered an error processing your query: " ++ e
        tools_used := []
        tool_results := []
        sources := JVal.arr []
        error := some e } := by
  simp only [process_query, process_query_full, h]

/-- Witness for C3 with a scripted model whose very first round-trip raises. -/
theorem process_query_top_level_catch_witness :
    process_query_run inert_tools (fun _ => Except.error "transport down") "u1" "hello" =
      Except.error "transport down" ∧
    process_query inert_tools (fun _ => Except.error "transport down") "u1" "hello" =
      { answer := "I apologize, but I encountered an error processing your query: " ++
          "transport down"
        tools_used := []
        tool_results := []
        sources := JVal.arr []
        error := some "transport down" } :=
  ⟨rfl, process_query_top_level_catch inert_tools (fun _ => Except.error "transport down")
    "u1" "hello" "transport down" rfl⟩

/-- Each successful loop run grows the sent-message trace by at most `fuel`
batches. -/
theorem loop_rounds_sent_le (tools : Tools) (llm : Nat → Except String ModelResponse)
    (user_id : String) :
    ∀ (fuel send_idx : Nat) (resp : ModelResponse) (st : LoopState)
      (out : ModelResponse × LoopState),
      loop_rounds tools llm user_id fuel send_idx resp st = Except.ok out →
      out.2.sent.length ≤ st.sent.length + fuel := by
  intro fuel
  induction fuel with
  | zero =>
    intro send_idx resp st out h
    simp only [loop_rounds] at h
    cases h
    simp
  | succ n ih =>
    intro send_idx resp st out h
    simp only [loop_rounds] at h
    split at h
    · cases h; simp
    · split at h
      · cases h; simp
      · cases hl : llm send_idx with
        | error e => rw [hl] at h; cases h
        | ok resp2 =>
          rw [hl] at h
          have hle := ih (send_idx + 1) resp2
            (exec_round tools user_id (get_calls resp) st) out h
          have hx : (exec_round tools user_id (get_calls resp) st).sent.length =
              st.sent.length + 1 := by
            simp [exec_round]
          omega

/-- Against a scripted model that requests tools on every round, the loop
consumes its entire fuel, finishes with the model's last response, and adds
exactly `fuel` batch messages to the trace. -/
theorem loop_rounds_exhausts (tools : Tools) (llm : Nat → Except String ModelResponse)
    (user_id : String) (H : ∀ k, ∃ r, llm k = Except.ok r ∧ get_calls r ≠ []) :
    ∀ (fuel send_idx : Nat) (resp : ModelResponse) (st : LoopState),
      get_calls resp ≠ [] →
      ∃ rlast stout,
        loop_rounds tools llm user_id fuel send_idx resp st = Except.ok (rlast, stout) ∧
        (fuel = 0 → rlast = resp) ∧
        (0 < fuel → llm (send_idx + fuel - 1) = Except.ok rlast) ∧
        stout.sent.length = st.sent.length + fuel := by
  intro fuel
  induction fuel with
  | zero =>
    intro send_idx resp st hcalls
    exact ⟨resp, st, rfl, fun _ => rfl, fun h => absurd h (by omega), by simp⟩
  | succ n ih =>
    intro send_idx resp st hcalls
    have hparts : resp.parts.isEmpty = false := by
      rcases hp : resp.parts with _ | ⟨a, as⟩
      · exact absurd (by simp [get_calls, hp]) hcalls
      · simp
    have hcne : (get_calls resp).isEmpty = false := by
      rcases hg : get_calls resp with _ | _
      · exact absurd hg hcalls
      · simp
    obtain ⟨r2, hr2, hc2⟩ := H send_idx
    obtain ⟨rlast, stout, heq, h0, hpos, hlen⟩ :=
      ih (send_idx + 1) r2 (exec_round tools user_id (get_calls resp) st) hc2
    refine ⟨rlast, stout, ?_, fun h => absurd h (by omega), ?_, ?_⟩
    · simp only [loop_rounds, hparts, hcne, hr2]
      simpa using heq
    · intro _
      rcases Nat.eq_zero_or_pos n with rfl | hn
      · rw [show send_idx + (0 + 1) - 1 = send_idx by omega, h0 rfl] at *
        exact hr2
      · have hx := hpos hn
        rwa [show send_idx + 1 + n - 1 = send_idx + (n + 1) - 1 by omega] at hx
    · rw [hlen]
      simp only [exec_round, List.length_append, List.length_cons, List.length_nil]
      omega

/-- C1: for every query and every scripted model, `process_query` sends at
most 11 messages (the query plus at most 10 tool-round batches), so the loop
terminates within the iteration cap; and against a model that requests tool
calls on every round indefinitely, the cap is exhausted after exactly 10
rounds and the function still returns a well-formed response whose answer is
whatever text the model last produced (possibly empty), with no error. -/
theorem process_query_terminates (tools : Tools) (llm : Nat → Except String ModelResponse)
    (user_id query : String) :
    (process_query_full tools llm user_id query).2.length ≤ 11 ∧
    ((∀ k, ∃ r, llm k = Except.ok r ∧ get_calls r ≠ []) →
      ∃ r, llm 10 = Except.ok r ∧
        (process_query tools llm user_id query).answer = response_text r ∧
        (process_query tools llm user_id query).error = none ∧
        (process_query_full tools llm user_id query).2.length = 11) := by
  constructor
  · cases h0 : llm 0 with
    | error e => simp [process_query_full, process_query_run, h0]
    | ok resp0 =>
      cases hl : loop_rounds tools llm user_id 10 1 resp0 ⟨[], [], [Msg.userQuery query]⟩ with
      | error e => simp [process_query_full, process_query_run, h0, hl]
      | ok out =>
        have hb := loop_rounds_sent_le tools llm user_id 10 1 resp0
          ⟨[], [], [Msg.userQuery query]⟩ out hl
        obtain ⟨resp, st⟩ := out
        simp only [process_query_full, process_query_run, h0, hl]
        simpa using hb
  · intro H
    obtain ⟨r0, hr0, hc0⟩ := H 0
    obtain ⟨rlast, stout, heq, -, hposf, hlenf⟩ :=
      loop_rounds_exhausts tools llm user_id H 10 1 r0 ⟨[], [], [Msg.userQuery query]⟩ hc0
    have hr10 : llm 10 = Except.ok rlast := by
      have hx := hposf (by omega)
      rwa [show 1 + 10 - 1 = 10 by omega] at hx
    refine ⟨rlast, hr10, ?_, ?_, ?_⟩
    · simp [process_query, process_query_full, process_query_run, hr0, heq]
    · simp [process_query, process_query_full, process_query_run, hr0, heq]
    · simp only [process_query_full, process_query_run, hr0, heq]
      simpa using hlenf

/-- Witness for C1: the scripted `always_call_llm` requests a tool on every
round; the run exhausts the cap and returns the model's 11th response text. -/
theorem process_query_terminates_witness :
    (∀ k, ∃ r, always_call_llm k = Except.ok r ∧ get_calls r ≠ []) ∧
    ∃ r, always_call_llm 10 = Except.ok r ∧
      (process_query inert_tools always_call_llm "u1" "q1").answer = response_text r ∧
      (process_query inert_tools always_call_llm "u1" "q1").error = none ∧
      (process_query_full inert_tools always_call_llm "u1" "q1").2.length = 11 := by
  have H : ∀ k, ∃ r, always_call_llm k = Except.ok r ∧ get_calls r ≠ [] :=
    fun _ => ⟨⟨[⟨"", some ⟨"find_correlations", []⟩⟩]⟩, rfl, by simp [get_calls]⟩
  exact ⟨H, (process_query_terminates inert_tools always_call_llm "u1" "q1").2 H⟩

/-- C5: when a model turn contains several tool calls, one loop round
executes all of them via the dispatcher (in request order), appends all
their names to `tools_used` in that order, sends exactly one batched
tool-response message containing every `(name, result)` pair, and only then
hands control back to the model for the next round. -/
theorem loop_batching (tools : Tools) (llm : Nat → Except String ModelResponse)
    (user_id : String) (fuel send_idx : Nat) (resp : ModelResponse) (st : LoopState)
    (c : FunctionCall) (cs : List FunctionCall)
    (hcalls : get_calls resp = c :: cs) :
    (exec_round tools user_id (c :: cs) st).tools_used =
        st.tools_used ++ (c :: cs).map FunctionCall.name ∧
    (exec_round tools user_id (c :: cs) st).sent =
        st.sent ++ [Msg.toolBatch ((c :: cs).map (fun k =>
          (k.name, execute_function tools k.name user_id k.args)))] ∧
    loop_rounds tools llm user_id (fuel + 1) send_idx resp st =
      (match llm send_idx with
       | Except.error e => Except.error e
       | Except.ok resp2 =>
         loop_rounds tools llm user_id fuel (send_idx + 1) resp2
           (exec_round tools user_id (c :: cs) st)) := by
  have hparts : resp.parts.isEmpty = false := by
    rcases hp : resp.parts with _ | _
    · rw [get_calls, hp] at hcalls
      cases hcalls
    · simp
  refine ⟨by simp [exec_round], by simp [exec_round], ?_⟩
  simp only [loop_rounds, hparts, hcalls]
  simp

/-- Witness for C5: a turn with three simultaneous tool calls, executed as
one round: `tools_used` gains the three names in order and exactly one batch
message is appended. -/
theorem loop_batching_witness :
    (get_calls ⟨[⟨"", some ⟨"detect_anomalies", []⟩⟩, ⟨"", some ⟨"run_forecasting", []⟩⟩,
        ⟨"", some ⟨"search_private_journal", []⟩⟩]⟩ =
      [⟨"detect_anomalies", []⟩, ⟨"run_forecasting", []⟩, ⟨"search_private_journal", []⟩]) ∧
    (exec_round inert_tools "u1"
        [⟨"detect_anomalies", []⟩, ⟨"run_forecasting", []⟩, ⟨"search_private_journal", []⟩]
        ⟨[], [], [Msg.userQuery "q1"]⟩).tools_used =
      ["detect_anomalies", "run_forecasting", "search_private_journal"] ∧
    (exec_round inert_tools "u1"
        [⟨"detect_anomalies", []⟩, ⟨"run_forecasting", []⟩, ⟨"search_private_journal", []⟩]
        ⟨[], [], [Msg.userQuery "q1"]⟩).sent.length = 2 := by
  have h := loop_batching inert_tools (fun _ => Except.ok ⟨[]⟩) "u1" 0 1
    ⟨[⟨"", some ⟨"detect_anomalies", []⟩⟩, ⟨"", some ⟨"run_forecasting", []⟩⟩,
      ⟨"", some ⟨"search_private_journal", []⟩⟩]⟩ ⟨[], [], [Msg.userQuery "q1"]⟩
    ⟨"detect_anomalies", []⟩ [⟨"run_forecasting", []⟩, ⟨"search_private_journal", []⟩] rfl
  refine ⟨rfl, ?_, ?_⟩
  · rw [h.1]; rfl
  · rw [h.2.1]; rfl

/-- C7 (amended): on every successful run, the top-level `sources` of the
response is exactly the `citations` value of `external_research`'s tool
result whenever that tool is among `tools_used` and its result carries a
`citations` key — surfaced verbatim (in the source this is a list of plain
URL strings, not `{url, title}` objects: see the counterexample) — and the
empty list when `external_research` was not invoked. -/
theorem sources_surfacing (tools : Tools) (llm : Nat → Except String ModelResponse)
    (user_id query : String) (res : QueryResult) (trace : List Msg)
    (h : process_query_run tools llm user_id query = Except.ok (res, trace)) :
    (∀ r v, res.tools_used.contains "external_research" = true →
        dictLookup res.tool_results "external_research" = some r →
        dictLookup r "citations" = some v →
        res.sources = v) ∧
    (res.tools_used.contains "external_research" = false → res.sources = JVal.arr []) := by
  have hs : res.sources = build_sources res.tools_used res.tool_results := by
    simp only [process_query_run] at h
    split at h
    · cases h
    · split at h
      · cases h
      · simp only [Except.ok.injEq, Prod.mk.injEq] at h
        obtain ⟨hres, -⟩ := h
        rw [← hres]
  constructor
  · intro r v hc hr hcit
    rw [hs, build_sources, if_pos hc]
    simp only [hr, hcit]
  · intro hc
    rw [hs, build_sources, if_neg (by rw [hc]; exact Bool.false_ne_true)]

/-- Witness for C7 on a concrete two-round run whose `external_research`
result carries two citation URLs, surfaced verbatim as `sources`. -/
theorem sources_surfacing_witness :
    ∃ res trace, process_query_run w7_tools w7_llm "u1" "q1" = Except.ok (res, trace) ∧
      res.tools_used.contains "external_research" = true ∧
      dictLookup res.tool_results "external_research" = some
        [("citations", JVal.arr [JVal.s "https://example.org/x", JVal.s "https://example.org/y"])] ∧
      dictLookup [("citations",
          JVal.arr [JVal.s "https://example.org/x", JVal.s "https://example.org/y"])] "citations" =
        some (JVal.arr [JVal.s "https://example.org/x", JVal.s "https://example.org/y"]) ∧
      res.sources = JVal.arr [JVal.s "https://example.org/x", JVal.s "https://example.org/y"] := by
  refine ⟨_, _, rfl, rfl, rfl, rfl, ?_⟩
  exact (sources_surfacing w7_tools w7_llm "u1" "q1" _ _ rfl).1 _ _ rfl rfl rfl

/-- C7 counterexample: on a run where `external_research` returned one
citation, the surfaced `sources` is the raw citations list — a list of URL
strings — not a list of `{url, title}` objects, so the claimed caller-facing
shape `sources: [{url, title}]` is violated. -/
theorem sources_shape_counterexample :
    (process_query cx7_tools cx7_llm "u1" "q1").tools_used = ["external_research"] ∧
    (process_query cx7_tools cx7_llm "u1" "q1").sources =
      JVal.arr [JVal.s "https://example.com/a"] ∧
    is_url_title_list (process_query cx7_tools cx7_llm "u1" "q1").sources = false :=
  ⟨rfl, rfl, rfl⟩

/-! ## LIKE-pattern lemmas for the journal keyword fallback -/

theorem like_match_percent_nil (t : List Char) : like_match ['%'] t = true := by
  induction t with
  | nil => rfl
  | cons c cs ih =>
    show ((c :: cs).tails.any (fun x => like_match [] x)) = true
    rw [List.tails_cons]
    simp only [List.any_cons]
    have : (cs.tails.any (fun x => like_match [] x)) = true := ih
    rw [this]
    simp

theorem like_match_literal_append (qs : List Char) (hq : ∀ c ∈ qs, c ≠ '%' ∧ c ≠ '_') :
    ∀ t, like_match (qs ++ ['%']) t = starts_with qs t := by
  induction qs with
  | nil =>
    intro t
    rw [List.nil_append]
    rw [like_match_percent_nil t]
    rfl
  | cons q qs ih =>
    intro t
    have hqh := hq q (by simp)
    cases t with
    | nil =>
      rw [List.cons_append]
      show (if q = '%' then (([] : List Char).tails.any (fun x => like_match (qs ++ ['%']) x))
        else match ([] : List Char) with
          | [] => false
          | c :: cs2 => (if q = '_' then true else q == c) && like_match (qs ++ ['%']) cs2) =
        starts_with (q :: qs) []
      rw [if_neg hqh.1]
      rfl
    | cons c cs =>
      rw [List.cons_append]
      show (if q = '%' then ((c :: cs).tails.any (fun x => like_match (qs ++ ['%']) x))
        else match c :: cs with
          | [] => false
          | c :: cs2 => (if q = '_' then true else q == c) && like_match (qs ++ ['%']) cs2) =
        starts_with (q :: qs) (c :: cs)
      rw [if_neg hqh.1]
      show ((if q = '_' then true else q == c) && like_match (qs ++ ['%']) cs) =
        starts_with (q :: qs) (c :: cs)
      rw [if_neg hqh.2, ih (fun x hx => hq x (by simp [hx]))]
      rfl

theorem contains_seq_eq_any_tails (qs : List Char) :
    ∀ t : List Char, t.tails.any (starts_with qs) = contains_seq qs t := by
  intro t
  induction t with
  | nil => simp [contains_seq]
  | cons c cs ih =>
    rw [List.tails_cons]
    simp only [List.any_cons]
    rw [ih]
    rfl

theorem like_match_percent_wrap (qs : List Char) (hq : ∀ c ∈ qs, c ≠ '%' ∧ c ≠ '_')
    (t : List Char) : like_match ('%' :: (qs ++ ['%'])) t = contains_seq qs t := by
  have h1 : like_match ('%' :: (qs ++ ['%'])) t =
      t.tails.any (fun x => like_match (qs ++ ['%']) x) := by
    show (if '%' = '%' then (t.tails.any (fun x => like_match (qs ++ ['%']) x))
      else _) = _
    rw [if_pos rfl]
  rw [h1]
  have h2 : (fun x => like_match (qs ++ ['%']) x) = starts_with qs :=
    funext (like_match_literal_append qs hq)
  rw [h2, contains_seq_eq_any_tails]

/-- Bridging lemma: for a query with no SQL wildcard characters, the
source's `ilike("content", f"%:query:%")` filter coincides with a literal
case-insensitive substring check. -/
theorem ilike_filter_literal (content query : String)
    (hq : ∀ c ∈ to_lower_chars query, c ≠ '%' ∧ c ≠ '_') :
    ilike_filter content ("%" ++ query ++ "%") = contains_ci content query := by
  have hdata : to_lower_chars ("%" ++ query ++ "%") = '%' :: (to_lower_chars query ++ ['%']) := by
    simp [to_lower_chars, String.data_append]
  rw [ilike_filter, hdata, like_match_percent_wrap _ hq]
  rfl

/-- C8 (amended): when the semantic vector search returns zero matches but
the user has at least one journal entry, the fallback returns (up to
`n_results`) the entries whose content matches the case-insensitive SQL
pattern `%query%` — which, for queries containing no `%` or `_` wildcard,
is exactly the literal case-insensitive substring matches — each with
`similarity = 0.0` and a `search_method = "keyword_fallback"` marker.  (For
queries containing wildcards the search is pattern-based, not literal: see
the counterexample.) -/
theorem search_private_journal_fallback (table : List JournalRow)
    (pinecone_results : List JournalMatch) (user_id query : String) (n_results : Nat)
    (hsem : pinecone_results = [])
    (hentries : (table.filter (fun r => r.user_id == user_id)).isEmpty = false)
    (hq : ∀ c ∈ to_lower_chars query, c ≠ '%' ∧ c ≠ '_') :
    (search_private_journal_run table pinecone_results user_id query n_results).results =
      (((table.filter (fun r => r.user_id == user_id)).filter
          (fun e => contains_ci e.content query)).take n_results).map (fun e =>
        { entry_id := e.id, date := e.date, content := e.content
          similarity := 0, search_method := some "keyword_fallback" }) ∧
    ∀ m ∈ (search_private_journal_run table pinecone_results user_id query n_results).results,
      m.similarity = 0 ∧ m.search_method = some "keyword_fallback" := by
  subst hsem
  have hfeq : (table.filter (fun r => r.user_id == user_id)).filter
      (fun e => ilike_filter e.content ("%" ++ query ++ "%")) =
      (table.filter (fun r => r.user_id == user_id)).filter
      (fun e => contains_ci e.content query) :=
    List.filter_congr (fun e _ => ilike_filter_literal e.content query hq)
  have hrun : (search_private_journal_run table [] user_id query n_results).results =
      (((table.filter (fun r => r.user_id == user_id)).filter
          (fun e => contains_ci e.content query)).take n_results).map (fun e =>
        { entry_id := e.id, date := e.date, content := e.content
          similarity := 0, search_method := some "keyword_fallback" }) := by
    simp only [search_private_journal_run, hentries, hfeq]
    simp only [Bool.false_eq_true, if_false, List.isEmpty_nil, if_true]
    by_cases he : (((table.filter (fun r => r.user_id == user_id)).filter
        (fun e => contains_ci e.content query)).take n_results).isEmpty
    · rw [if_pos he]
      rw [List.isEmpty_iff.1 he]
      rfl
    · rw [if_neg he]
  refine ⟨hrun, ?_⟩
  intro m hm
  rw [hrun] at hm
  simp only [List.mem_map] at hm
  obtain ⟨e, he, rfl⟩ := hm
  exact ⟨rfl, rfl⟩

/-- Witness for C8 (amended) on one entry matched by a wildcard-free query. -/
theorem search_private_journal_fallback_witness :
    (([⟨"e1", "u1", "2024-01-01", "Felt dizzy after coffee"⟩] : List JournalRow).filter
        (fun r => r.user_id == "u1")).isEmpty = false ∧
    (∀ c ∈ to_lower_chars "dizzy", c ≠ '%' ∧ c ≠ '_') ∧
    (search_private_journal_run [⟨"e1", "u1", "2024-01-01", "Felt dizzy after coffee"⟩]
        [] "u1" "dizzy" 5).results =
      [{ entry_id := "e1", date := "2024-01-01", content := "Felt dizzy after coffee"
         similarity := 0, search_method := some "keyword_fallback" }] := by
  refine ⟨by decide, by decide, ?_⟩
  have h := (search_private_journal_fallback
    [⟨"e1", "u1", "2024-01-01", "Felt dizzy after coffee"⟩] [] "u1" "dizzy" 5
    rfl (by decide) (by decide)).1
  rw [h]
  rfl

/-- C8 counterexample: the fallback is an SQL ILIKE pattern search, not a
literal substring search — for the query "50%" (whose `%` is a wildcard) it
returns an entry that does not contain the literal substring "50%". -/
theorem journal_fallback_literal_counterexample :
    (search_private_journal_run [⟨"e1", "u1", "2024-01-01", "I ran 50 miles"⟩]
        [] "u1" "50%" 5).results =
      [{ entry_id := "e1", date := "2024-01-01", content := "I ran 50 miles"
         similarity := 0, search_method := some "keyword_fallback" }] ∧
    contains_ci "I ran 50 miles" "50%" = false :=
  ⟨rfl, rfl⟩

end AxionHealth
